import Mathlib

/-
Shallow embedding of `src/bug_report.rs` (starship's bug-report command).

External collaborators (environment variables, the filesystem, subprocess
execution, the clipboard, the browser opener, the URL-shortening HTTP call,
and the platform-information provider `os_info`) are modelled as explicit
read-only oracles passed in, following the source's use of them:
- `std::env::var` becomes `String → Option String` (a set variable yields
  `some value`, an unset one yields `none`);
- `fs::read_to_string(path).ok()` becomes `String → Option String`;
- `crate::utils::exec_cmd(cmd, args)` becomes
  `String → List String → Option String` returning the captured stdout;
- `dirs::home_dir()` becomes `Option String`;
- `cfg!(windows)` becomes a `Bool` parameter;
- the `Display` output of `os_info::Type` / `os_info::Version` becomes a
  `String` field.
Paths (`PathBuf`) are modelled as strings; `home_dir.join(rel)` for the
relative path literals appearing in the source is string concatenation with
a `/` separator.
-/

set_option maxRecDepth 10000

namespace Starship

/-- Sentinel `UNKNOWN_SHELL` from the source. -/
def UNKNOWN_SHELL : String := "<unknown shell>"

/-- Sentinel `UNKNOWN_TERMINAL` from the source. -/
def UNKNOWN_TERMINAL : String := "<unknown terminal>"

/-- Sentinel `UNKNOWN_VERSION` from the source. -/
def UNKNOWN_VERSION : String := "<unknown version>"

/-- Sentinel `UNKNOWN_CONFIG` from the source. -/
def UNKNOWN_CONFIG : String := "<unknown config>"

/-- Base URL of the git.io URL-shortening service (`GIT_IO_BASE_URL`). -/
def GIT_IO_BASE_URL : String := "https://git.io/"

/-- Unicode White_Space property, the character class trimmed by Rust's
`str::trim` (`char::is_whitespace`). -/
def rustIsWhitespace (c : Char) : Bool :=
  (0x09 ≤ c.toNat && c.toNat ≤ 0x0D) || c.toNat == 0x20 || c.toNat == 0x85 ||
  c.toNat == 0xA0 || c.toNat == 0x1680 ||
  (0x2000 ≤ c.toNat && c.toNat ≤ 0x200A) || c.toNat == 0x2028 ||
  c.toNat == 0x2029 || c.toNat == 0x202F || c.toNat == 0x205F ||
  c.toNat == 0x3000

/-- Rust's `str::trim`: remove leading and trailing whitespace. -/
def rustTrim (s : String) : String :=
  ⟨((s.data.dropWhile rustIsWhitespace).reverse.dropWhile rustIsWhitespace).reverse⟩

/-- Rust's `PathBuf::join` specialised to the relative path literals of the
source joined onto a home directory without a trailing separator. -/
def pathJoin (home rel : String) : String := home ++ "/" ++ rel

/-- The `ShellInfo` struct of the source. -/
structure ShellInfo where
  name : String
  version : String
  config : String

/-- The `TerminalInfo` struct of the source. -/
structure TerminalInfo where
  name : String
  version : String

/-- The `Environment` struct of the source; `os_type` and `os_version` hold
the `Display` rendering of the `os_info` values. -/
structure Environment where
  os_type : String
  os_version : String
  shell_info : ShellInfo
  terminal_info : TerminalInfo
  starship_config : String

/-- `get_config_path` from the source: map the shell name to its rc-file
path relative to the home directory (note the source's `ion` arm carries a
literal leading `~/` in the joined string). -/
def get_config_path (homeDir : Option String) (isWindows : Bool)
    (shell : String) : Option String :=
  homeDir.bind fun home_dir =>
    (match shell with
      | "bash" => some ".bashrc"
      | "fish" => some ".config/fish/config.fish"
      | "ion" => some "~/.config/ion/initrc"
      | "powershell" =>
        if isWindows then
          some "Documents/PowerShell/Microsoft.PowerShell_profile.ps1"
        else
          some ".config/powershell/Microsoft.PowerShell_profile.ps1"
      | "zsh" => some ".zshrc"
      | _ => none).map (fun path => pathJoin home_dir path)

/-- `get_starship_config` from the source: read `.config/starship.toml`
under the home directory, else the unknown-config sentinel (the source does
not trim this file's contents). -/
def get_starship_config (homeDir : Option String)
    (readFile : String → Option String) : String :=
  (homeDir.bind fun home_dir =>
    readFile (pathJoin home_dir ".config/starship.toml")).getD UNKNOWN_CONFIG

/-- `get_shell_info` from the source: consult `STARSHIP_SHELL`; when set,
run the shell with `--version` for the version and read its rc file for the
config, trimming both; when unset, return the three sentinels. -/
def get_shell_info (env : String → Option String)
    (execCmd : String → List String → Option String)
    (homeDir : Option String) (isWindows : Bool)
    (readFile : String → Option String) : ShellInfo :=
  match env "STARSHIP_SHELL" with
  | none =>
    { name := UNKNOWN_SHELL
      version := UNKNOWN_VERSION
      config := UNKNOWN_CONFIG }
  | some shell =>
    let version :=
      ((execCmd shell ["--version"]).map
        (fun stdout => rustTrim stdout)).getD UNKNOWN_VERSION
    let config :=
      (((get_config_path homeDir isWindows shell).bind
          (fun config_path => readFile config_path)).map
        (fun config => rustTrim config)).getD UNKNOWN_CONFIG
    { name := shell, version := version, config := config }

/-- `get_terminal_info` from the source: `TERM_PROGRAM` falling back to
`LC_TERMINAL`, and `TERM_PROGRAM_VERSION` falling back to
`LC_TERMINAL_VERSION`, each defaulting to its sentinel. -/
def get_terminal_info (env : String → Option String) : TerminalInfo :=
  let terminal :=
    ((env "TERM_PROGRAM").orElse (fun _ => env "LC_TERMINAL")).getD
      UNKNOWN_TERMINAL
  let version :=
    ((env "TERM_PROGRAM_VERSION").orElse
      (fun _ => env "LC_TERMINAL_VERSION")).getD UNKNOWN_VERSION
  { name := terminal, version := version }

/-- `format_env_info` from the source: the fixed report template with every
field of the environment inserted. -/
def format_env_info (starship_version : String)
    (environment : Environment) : String :=
  "- Starship version: " ++ starship_version ++
  "\n- " ++ environment.shell_info.name ++
  " version: " ++ environment.shell_info.version ++
  "\n- Operating system: " ++ environment.os_type ++ " " ++
  environment.os_version ++
  "\n- Terminal emulator: " ++ environment.terminal_info.name ++ " " ++
  environment.terminal_info.version ++
  "\n\n#### Relevant Shell Configuration\n\n```bash\n" ++
  environment.shell_info.config ++
  "\n```\n\n#### Starship Configuration\n\n```toml\n" ++
  environment.starship_config ++ "\n```"

/-- Does `pat` occur at the head of `s`? (helper for substring search and
for Rust's `str::replace`). -/
def listStartsWith : List Char → List Char → Bool
  | _, [] => true
  | [], _ :: _ => false
  | a :: s, b :: p => a == b && listStartsWith s p

/-- Does `pat` occur anywhere in `s`? Embeds Rust's `str::contains` for a
string pattern. -/
def listContainsSub (pat : List Char) : List Char → Bool
  | [] => pat.isEmpty
  | c :: rest => listStartsWith (c :: rest) pat || listContainsSub pat rest

/-- String form of `listContainsSub`. -/
def strContains (s pat : String) : Bool := listContainsSub pat.data s.data

/-- Leftmost non-overlapping replacement, the semantics of Rust's
`str::replace`; the fuel argument bounds recursion and is at least the
length of the scanned list, which suffices because every step consumes at
least one character (the source only calls this with a non-empty pattern). -/
def replaceAllAux (pat rep : List Char) : Nat → List Char → List Char
  | 0, s => s
  | _ + 1, [] => []
  | fuel + 1, c :: s =>
    if pat ≠ [] ∧ listStartsWith (c :: s) pat = true then
      rep ++ replaceAllAux pat rep fuel (List.drop (pat.length - 1) s)
    else
      c :: replaceAllAux pat rep fuel s

/-- Rust's `str::replace(pat, rep)` on strings. -/
def strReplace (s pat rep : String) : String :=
  ⟨replaceAllAux pat.data rep.data s.data.length s.data⟩

/-- Number of occurrences of the character `c` in `s`. -/
def countChar (c : Char) (s : String) : Nat :=
  s.data.countP (fun d => d == c)

/-- Bytes kept verbatim by `urlencoding::encode`: ASCII alphanumerics and
`-`, `_`, `.`, `~`. -/
def isUrlUnreservedByte (b : Nat) : Bool :=
  (65 ≤ b && b ≤ 90) || (97 ≤ b && b ≤ 122) || (48 ≤ b && b ≤ 57) ||
  b == 45 || b == 95 || b == 46 || b == 126

/-- Uppercase hexadecimal digit for a nibble, as produced by the
percent-encoding's `%{:02X}` formatting. -/
def hexDigit (n : Nat) : Char :=
  if n < 10 then Char.ofNat (48 + n) else Char.ofNat (55 + n)

/-- UTF-8 byte sequence of a character (the Rust code iterates the byte
representation of the string). -/
def utf8Bytes (c : Char) : List Nat :=
  let n := c.toNat
  if n < 0x80 then [n]
  else if n < 0x800 then [0xC0 + n / 0x40, 0x80 + n % 0x40]
  else if n < 0x10000 then
    [0xE0 + n / 0x1000, 0x80 + (n / 0x40) % 0x40, 0x80 + n % 0x40]
  else
    [0xF0 + n / 0x40000, 0x80 + (n / 0x1000) % 0x40,
     0x80 + (n / 0x40) % 0x40, 0x80 + n % 0x40]

/-- `urlencoding::encode`: keep unreserved bytes, percent-encode every other
byte as `%XX` with uppercase hex. -/
def urlencode (s : String) : String :=
  ⟨(s.data.flatMap utf8Bytes).flatMap fun b =>
    if isUrlUnreservedByte b then [Char.ofNat b]
    else ['%', hexDigit (b / 16), hexDigit (b % 16)]⟩

/-- The fixed issue-body template string passed to `urlencoding::encode`
inside `get_github_issue_link`. -/
def issueBody : String :=
  "#### Current Behavior\n<!-- A clear and concise description of the behavior. -->\n\n#### Expected Behavior\n<!-- A clear and concise description of what you expected to happen. -->\n\n#### Additional context/Screenshots\n<!-- Add any other context about the problem here. If applicable, add screenshots to help explain. -->\n\n#### Possible Solution\n<!--- Only if you have suggestions on a fix for the bug -->\n\n#### Environment\n<!-- Your environment information has been copied to the clipboard automatically. Paste it here. -->\n"

/-- `get_github_issue_link` from the source: URL-encode the issue body,
normalise `%20` to `+`, and append it as the `body` query parameter of the
issue-tracker URL. -/
def get_github_issue_link : String :=
  let body := strReplace (urlencode issueBody) "%20" "+"
  "https://github.com/starship/starship/issues/new?body=" ++ body

/-- Read-only oracles for every effect performed by `create`: process
environment, home directory, platform flag, filesystem, subprocess runner,
`os_info` display strings, clipboard writer (`true` = copy succeeded),
browser opener (`true` = `open::that(..).is_ok()`), and the git.io
shortener (`some slug` = the HTTP round trip succeeded with that response
body). -/
structure World where
  envVars : String → Option String
  homeDir : Option String
  isWindows : Bool
  readFile : String → Option String
  execCmd : String → List String → Option String
  osType : String
  osVersion : String
  clipboardSet : String → Bool
  openBrowser : String → Bool
  shorten : String → Option String

/-- The `Environment` value built at the top of `create`. -/
def environmentOf (w : World) : Environment :=
  { os_type := w.osType
    os_version := w.osVersion
    shell_info :=
      get_shell_info w.envVars w.execCmd w.homeDir w.isWindows w.readFile
    terminal_info := get_terminal_info w.envVars
    starship_config := get_starship_config w.homeDir w.readFile }

/-- The formatted report `env_info` built inside `create`;
`starship_version` stands for the external compile-time constant
`crate_version!()`. -/
def envInfoOf (starship_version : String) (w : World) : String :=
  format_env_info starship_version (environmentOf w)

/-- Message printed when the browser was opened successfully. -/
def browserOpenedMsg : String :=
  "Take a look at your browser. A GitHub issue has been created and your environment info has been copied to your clipboard."

/-- Message printed with a link for manual opening when the browser could
not be opened. -/
def manualLinkMsg (link : String) : String :=
  "Your environment info has been copied to your clipboard. Click this link to create a GitHub issue:\n\n  " ++ link

/-- Message printed when the clipboard copy failed, carrying the full
report. -/
def clipboardFallbackMsg (env_info : String) : String :=
  "\n\nYour clipboard was unavailable, so here\x27s the summary of your environment:\n\n" ++ env_info

/-- `create` from the source, as the sequence of messages it prints:
build the environment and report, build the issue link, record clipboard
success as a boolean, then either report the opened browser or fall back to
a (possibly shortened) link, and finally print the report itself whenever
the clipboard copy failed. -/
def create (starship_version : String) (w : World) : List String :=
  let link := get_github_issue_link
  let env_info := envInfoOf starship_version w
  let copy_success := w.clipboardSet env_info
  (if w.openBrowser link then
    [browserOpenedMsg]
  else
    let link :=
      ((w.shorten link).map
        (fun slug => GIT_IO_BASE_URL ++ slug)).getD link
    [manualLinkMsg link]) ++
  (if copy_success then [] else [clipboardFallbackMsg env_info])

/-! Theorems about the embedded program. -/

/-- C1: evaluating `get_config_path` at the failing input. For shell
"ion" the source joins the home directory with the literal string
"~/.config/ion/initrc", so with home "/test/home" the resolved path keeps
a literal "~" component and differs from the documented
"/test/home/.config/ion/initrc". -/
theorem c1_ion_config_path_eval :
    get_config_path (some "/test/home") false "ion" =
      some "/test/home/~/.config/ion/initrc" ∧
    ("/test/home/~/.config/ion/initrc" : String) ≠
      "/test/home/.config/ion/initrc" :=
  ⟨rfl, by decide⟩

/-- Concrete filesystem oracle for C2: the starship config file under home
"/h" holds text with surrounding whitespace. -/
def c2rf : String → Option String := fun p =>
  if p == "/h/.config/starship.toml" then some "  x  \n" else none

/-- C2 counterexample: with readable contents "  x  \n",
`get_starship_config` returns the contents untrimmed, so it differs from
the trimmed value "x" the claim promises. -/
theorem c2_counterexample :
    get_starship_config (some "/h") c2rf = "  x  \n" ∧
    rustTrim "  x  \n" = "x" ∧
    get_starship_config (some "/h") c2rf ≠ rustTrim "  x  \n" :=
  ⟨rfl, by decide, by decide⟩

/-- C2 (amended): `get_starship_config` reads exactly
`home/.config/starship.toml` and returns its contents as-is (no trimming);
when the home directory is missing or the file is unreadable it returns the
unknown-config sentinel. -/
theorem c2_starship_config_untrimmed (home : String)
    (readFile : String → Option String) :
    (∀ s, readFile (pathJoin home ".config/starship.toml") = some s →
      get_starship_config (some home) readFile = s) ∧
    (readFile (pathJoin home ".config/starship.toml") = none →
      get_starship_config (some home) readFile = UNKNOWN_CONFIG) ∧
    (∀ rf : String → Option String,
      get_starship_config none rf = UNKNOWN_CONFIG) := by
  refine ⟨?_, ?_, fun rf => rfl⟩
  · intro s hs
    simp [get_starship_config, hs]
  · intro hn
    simp [get_starship_config, hn]

/-- Closed instance of the C2 theorem's first clause at a concrete home
directory and filesystem. -/
theorem c2_witness :
    c2rf (pathJoin "/h" ".config/starship.toml") = some "  x  \n" ∧
    get_starship_config (some "/h") c2rf = "  x  \n" :=
  ⟨rfl, (c2_starship_config_untrimmed "/h" c2rf).1 "  x  \n" rfl⟩

/-- Concrete environment for C3: TERM_PROGRAM set to the empty string,
LC_TERMINAL set to "iTerm.app". -/
def c3env : String → Option String := fun k =>
  if k == "TERM_PROGRAM" then some ""
  else if k == "LC_TERMINAL" then some "iTerm.app" else none

/-- C3 counterexample: with TERM_PROGRAM present but empty and LC_TERMINAL
present and non-empty, the terminal name is the empty value of
TERM_PROGRAM, not the first non-empty value "iTerm.app": presence, not
non-emptiness, decides the priority. -/
theorem c3_counterexample :
    c3env "TERM_PROGRAM" = some "" ∧
    c3env "LC_TERMINAL" = some "iTerm.app" ∧
    (get_terminal_info c3env).name = "" ∧
    (get_terminal_info c3env).name ≠ "iTerm.app" :=
  ⟨rfl, rfl, rfl, by decide⟩

/-- C3 (amended): the first SET variable wins, empty or not: the terminal
name is TERM_PROGRAM's value whenever that variable is set, else
LC_TERMINAL's value when set, else the sentinel; the version follows the
same scheme over TERM_PROGRAM_VERSION and LC_TERMINAL_VERSION. -/
theorem c3_terminal_first_set_wins (env : String → Option String) :
    (∀ v, env "TERM_PROGRAM" = some v → (get_terminal_info env).name = v) ∧
    (env "TERM_PROGRAM" = none → ∀ v, env "LC_TERMINAL" = some v →
      (get_terminal_info env).name = v) ∧
    (env "TERM_PROGRAM" = none → env "LC_TERMINAL" = none →
      (get_terminal_info env).name = UNKNOWN_TERMINAL) ∧
    (∀ v, env "TERM_PROGRAM_VERSION" = some v →
      (get_terminal_info env).version = v) ∧
    (env "TERM_PROGRAM_VERSION" = none →
      ∀ v, env "LC_TERMINAL_VERSION" = some v →
        (get_terminal_info env).version = v) ∧
    (env "TERM_PROGRAM_VERSION" = none → env "LC_TERMINAL_VERSION" = none →
      (get_terminal_info env).version = UNKNOWN_VERSION) := by
  refine ⟨?_, ?_, ?_, ?_, ?_, ?_⟩ <;> intros <;>
    simp_all [get_terminal_info]

/-- Concrete environment for the C3 witness: only TERM_PROGRAM is set. -/
def c3env2 : String → Option String := fun k =>
  if k == "TERM_PROGRAM" then some "Apple_Terminal" else none

/-- Closed instance of the C3 theorem's first clause. -/
theorem c3_witness :
    c3env2 "TERM_PROGRAM" = some "Apple_Terminal" ∧
    (get_terminal_info c3env2).name = "Apple_Terminal" :=
  ⟨rfl, (c3_terminal_first_set_wins c3env2).1 "Apple_Terminal" rfl⟩

/-- C4: when STARSHIP_SHELL is unset, `get_shell_info` returns the three
sentinels for name, version and config, whatever the other oracles do. -/
theorem c4_shell_unset_sentinels (env : String → Option String)
    (execCmd : String → List String → Option String)
    (homeDir : Option String) (isWindows : Bool)
    (readFile : String → Option String)
    (h : env "STARSHIP_SHELL" = none) :
    get_shell_info env execCmd homeDir isWindows readFile =
      { name := UNKNOWN_SHELL, version := UNKNOWN_VERSION,
        config := UNKNOWN_CONFIG } := by
  unfold get_shell_info
  rw [h]

/-- Closed instance of the C4 theorem at the empty environment. -/
theorem c4_witness :
    (fun _ : String => (none : Option String)) "STARSHIP_SHELL" = none ∧
    get_shell_info (fun _ => none) (fun _ _ => none) none false
        (fun _ => none) =
      { name := UNKNOWN_SHELL, version := UNKNOWN_VERSION,
        config := UNKNOWN_CONFIG } :=
  ⟨rfl, c4_shell_unset_sentinels (fun _ => none) (fun _ _ => none) none false
    (fun _ => none) rfl⟩

/-- C5: when STARSHIP_SHELL holds a shell name, the version field is the
trimmed stdout of running that shell with the single argument "--version",
and the unknown-version sentinel when that invocation fails. -/
theorem c5_shell_version (env : String → Option String)
    (execCmd : String → List String → Option String)
    (homeDir : Option String) (isWindows : Bool)
    (readFile : String → Option String) (sh : String)
    (h : env "STARSHIP_SHELL" = some sh) :
    (∀ stdout, execCmd sh ["--version"] = some stdout →
      (get_shell_info env execCmd homeDir isWindows readFile).version =
        rustTrim stdout) ∧
    (execCmd sh ["--version"] = none →
      (get_shell_info env execCmd homeDir isWindows readFile).version =
        UNKNOWN_VERSION) := by
  constructor
  · intro stdout hs
    unfold get_shell_info
    rw [h]
    simp [hs]
  · intro hn
    unfold get_shell_info
    rw [h]
    simp [hn]

/-- Concrete environment for C5: STARSHIP_SHELL is "fish". -/
def c5env : String → Option String := fun k =>
  if k == "STARSHIP_SHELL" then some "fish" else none

/-- Concrete subprocess oracle for C5. -/
def c5exec : String → List String → Option String := fun _ _ =>
  some "fish, version 3.1.2\n"

/-- Closed instance of the C5 theorem's first clause. -/
theorem c5_witness :
    c5env "STARSHIP_SHELL" = some "fish" ∧
    c5exec "fish" ["--version"] = some "fish, version 3.1.2\n" ∧
    (get_shell_info c5env c5exec none false (fun _ => none)).version =
      rustTrim "fish, version 3.1.2\n" :=
  ⟨rfl, rfl,
    (c5_shell_version c5env c5exec none false (fun _ => none) "fish" rfl).1
      "fish, version 3.1.2\n" rfl⟩

/-- The concrete `Environment` of the known-inputs formatting scenario. -/
def c6Environment : Environment :=
  { os_type := "Linux", os_version := "1.2.3",
    shell_info :=
      { name := "test_shell", version := "2.3.4", config := "No config" },
    terminal_info := { name := "test_terminal", version := "5.6.7" },
    starship_config := "No Starship config" }

/-- C6: formatting the known inputs yields text containing every literal
field, with the shell config in a bash-fenced block and the tool config in
a toml-fenced block of the fixed template. -/
theorem c6_format_env_info_contains :
    strContains (format_env_info "0.1.2" c6Environment) "0.1.2" = true ∧
    strContains (format_env_info "0.1.2" c6Environment) "Linux" = true ∧
    strContains (format_env_info "0.1.2" c6Environment) "1.2.3" = true ∧
    strContains (format_env_info "0.1.2" c6Environment) "test_shell" = true ∧
    strContains (format_env_info "0.1.2" c6Environment) "2.3.4" = true ∧
    strContains (format_env_info "0.1.2" c6Environment) "No config" = true ∧
    strContains (format_env_info "0.1.2" c6Environment) "test_terminal" = true ∧
    strContains (format_env_info "0.1.2" c6Environment) "5.6.7" = true ∧
    strContains (format_env_info "0.1.2" c6Environment)
      "No Starship config" = true ∧
    strContains (format_env_info "0.1.2" c6Environment)
      "```bash\nNo config\n```" = true ∧
    strContains (format_env_info "0.1.2" c6Environment)
      "```toml\nNo Starship config\n```" = true := by
  refine ⟨?_, ?_, ?_, ?_, ?_, ?_, ?_, ?_, ?_, ?_, ?_⟩ <;> decide

/-- C7: the issue link is the fixed issue-tracker base URL with the encoded
body as the `body` query parameter; after the `%20` → `+` normalisation the
encoded body contains no "%20" and no literal space, and carries exactly one
`+` per space of the body template. -/
theorem c7_issue_link_encoding :
    get_github_issue_link =
      "https://github.com/starship/starship/issues/new?body=" ++
        strReplace (urlencode issueBody) "%20" "+" ∧
    strContains (strReplace (urlencode issueBody) "%20" "+") "%20" = false ∧
    countChar '+' (strReplace (urlencode issueBody) "%20" "+") =
      countChar ' ' issueBody ∧
    countChar ' ' (strReplace (urlencode issueBody) "%20" "+") = 0 := by
  refine ⟨rfl, ?_, ?_, ?_⟩ <;> decide

/-- C8: whenever the clipboard copy failed, `create` prints the full report
in addition to the branch message, for every browser/shortener outcome. -/
theorem c8_clipboard_fail_prints_report (starship_version : String)
    (w : World)
    (h : w.clipboardSet (envInfoOf starship_version w) = false) :
    clipboardFallbackMsg (envInfoOf starship_version w) ∈
      create starship_version w ∧
    (create starship_version w).length = 2 := by
  cases hb : w.openBrowser get_github_issue_link <;>
    simp [create, hb, h]

/-- Concrete world for the C8 witness: the clipboard always fails and the
browser opens fine. -/
def wC8 : World :=
  { envVars := fun _ => none, homeDir := none, isWindows := false,
    readFile := fun _ => none, execCmd := fun _ _ => none,
    osType := "Linux", osVersion := "1.0",
    clipboardSet := fun _ => false, openBrowser := fun _ => true,
    shorten := fun _ => none }

/-- Closed instance of the C8 theorem. -/
theorem c8_witness :
    wC8.clipboardSet (envInfoOf "0.1.2" wC8) = false ∧
    (clipboardFallbackMsg (envInfoOf "0.1.2" wC8) ∈ create "0.1.2" wC8 ∧
      (create "0.1.2" wC8).length = 2) :=
  ⟨rfl, c8_clipboard_fail_prints_report "0.1.2" wC8 rfl⟩

/-- C9: when the browser cannot be opened, the first printed message
carries the shortened link (base URL plus slug) when the shortener
succeeded and the original issue link when it failed; in every case
`create` prints something. -/
theorem c9_browser_fail_link_fallback (starship_version : String)
    (w : World)
    (h : w.openBrowser get_github_issue_link = false) :
    (∀ slug, w.shorten get_github_issue_link = some slug →
      (create starship_version w).head? =
        some (manualLinkMsg (GIT_IO_BASE_URL ++ slug))) ∧
    (w.shorten get_github_issue_link = none →
      (create starship_version w).head? =
        some (manualLinkMsg get_github_issue_link)) ∧
    create starship_version w ≠ [] := by
  refine ⟨?_, ?_, ?_⟩
  · intro slug hs
    simp [create, h, hs]
  · intro hn
    simp [create, h, hn]
  · cases hc : w.clipboardSet (envInfoOf starship_version w) <;>
      simp [create, h, hc]

/-- Concrete world for the C9 witness: the browser and the shortener both
fail. -/
def wC9 : World :=
  { envVars := fun _ => none, homeDir := none, isWindows := false,
    readFile := fun _ => none, execCmd := fun _ _ => none,
    osType := "Linux", osVersion := "1.0",
    clipboardSet := fun _ => true, openBrowser := fun _ => false,
    shorten := fun _ => none }

/-- Closed instance of the C9 theorem's unshortened-fallback clause. -/
theorem c9_witness :
    wC9.openBrowser get_github_issue_link = false ∧
    wC9.shorten get_github_issue_link = none ∧
    (create "0.1.2" wC9).head? = some (manualLinkMsg get_github_issue_link) :=
  ⟨rfl, rfl,
    (c9_browser_fail_link_fallback "0.1.2" wC9 rfl).2.1 rfl⟩

/-- C10: when STARSHIP_SHELL is set to the empty string, the shell name is
the empty string (not the unknown-shell sentinel); the empty string is not
a known shell, so no config path resolves and the config field is the
unknown-config sentinel. -/
theorem c10_empty_shell_name (env : String → Option String)
    (execCmd : String → List String → Option String)
    (homeDir : Option String) (isWindows : Bool)
    (readFile : String → Option String)
    (h : env "STARSHIP_SHELL" = some "") :
    (get_shell_info env execCmd homeDir isWindows readFile).name = "" ∧
    (get_shell_info env execCmd homeDir isWindows readFile).name ≠
      UNKNOWN_SHELL ∧
    get_config_path homeDir isWindows "" = none ∧
    (get_shell_info env execCmd homeDir isWindows readFile).config =
      UNKNOWN_CONFIG := by
  have hpath : get_config_path homeDir isWindows "" = none := by
    unfold get_config_path
    cases homeDir <;> rfl
  refine ⟨?_, ?_, hpath, ?_⟩
  · unfold get_shell_info
    rw [h]
  · unfold get_shell_info
    rw [h]
    show ("" : String) ≠ UNKNOWN_SHELL
    decide
  · unfold get_shell_info
    rw [h]
    simp [hpath]

/-- Concrete environment for C10: STARSHIP_SHELL set to the empty string. -/
def c10env : String → Option String := fun k =>
  if k == "STARSHIP_SHELL" then some "" else none

/-- Closed instance of the C10 theorem. -/
theorem c10_witness :
    c10env "STARSHIP_SHELL" = some "" ∧
    (get_shell_info c10env (fun _ _ => none) (some "/test/home") false
      (fun _ => none)).name = "" ∧
    (get_shell_info c10env (fun _ _ => none) (some "/test/home") false
      (fun _ => none)).config = UNKNOWN_CONFIG :=
  ⟨rfl,
    (c10_empty_shell_name c10env (fun _ _ => none) (some "/test/home") false
      (fun _ => none) rfl).1,
    (c10_empty_shell_name c10env (fun _ _ => none) (some "/test/home") false
      (fun _ => none) rfl).2.2.2⟩

end Starship
